import Mathlib

/-!
Verification of the descriptor layer of the ae-js native bridge
(packages/bridge/src/native: AEDescriptor.h, helpers.h, OSError.h).

The C++ classes are shallowly embedded. The wrapper object is the record
AEDescriptorWrapper holding the nullable owned pointer field desc. JS
callback arguments are lists of NapiValue. A pending JS exception is a
JSErr value. The native AECoerceDesc routine and the OSError message
table are oracle parameters bundled in NativeEnv, so theorems quantify
over every possible native behavior. Heap cells carry a numeric id that
models pointer identity, so freshness of allocations is expressible.
-/

namespace ae_js_bridge

/-- The native AEDesc record: a four byte type code plus an opaque data
handle standing for the payload contents. -/
structure AEDesc where
  descriptorType : Nat
  dataHandle : Nat
deriving DecidableEq

/-- A heap cell holding an AEDesc: the numeric id models pointer
identity, val models the pointee. -/
structure AEDescRef where
  id : Nat
  val : AEDesc
deriving DecidableEq

/-- A JS value as seen through the Napi CallbackInfo: a string (given by
its utf8 bytes), an External wrapping an AEDesc pointer, or anything
else. -/
inductive NapiValue where
  | string (s : List Nat)
  | external (d : AEDescRef)
  | other
deriving DecidableEq

/-- A structured native failure value: status code, caller supplied
context, and the resolved human readable message. -/
structure OSFailure where
  code : Int
  context : String
  message : String
deriving DecidableEq

/-- A pending JS exception: a Napi TypeError, a plain Napi Error, a
propagated C++ std runtime error, or an OSError object. -/
inductive JSErr where
  | typeError (msg : String)
  | jsError (msg : String)
  | runtimeError (msg : String)
  | osError (f : OSFailure)
deriving DecidableEq

/-- Message of the std runtime error thrown by GetRawDescriptorType
(AEDescriptor.h line 64). -/
def uninitializedAEDescMsg : String := "Uninitialized AEDesc"

/-- Message of the Napi Error thrown by AsOrThrow on a null desc
(AEDescriptor.h line 83). -/
def uninitializedDescriptorMsg : String := "Uninitialized descriptor"

/-- Message of the Napi Error thrown by AsOrThrow on a zero target tag
(AEDescriptor.h line 91). -/
def invalidDescriptorTypeMsg : String := "Invalid descriptor type"

/-- Context message passed to OSError by AsOrThrow on native failure
(AEDescriptor.h line 100). -/
def coerceFailedMsg : String := "AECoerceDesc failed"

/-- Message of the Napi TypeError thrown by AsOrThrow on a bad argument
list (AEDescriptor.h line 77). -/
def asExpectsStringMsg : String := "as(descriptorType) expects a string"

/-- Message of the Napi Error thrown by the wrapper constructor when
InitFromJS neither set desc nor threw (AEDescriptor.h line 47). -/
def descriptorInitFailedMsg : String := "Descriptor initialization failed"

/-- Fallback text of the status translator for codes outside its table. -/
def unknownErrorText : String := "unknown error "

/-- Modelled from the spec: the codec half StringToFourCharCode, whose
implementation is not under src (helpers.h only declares it; AEDescriptor.h
line 89 calls it). Per section 4.2 it returns the zero sentinel when the
input is not exactly 4 characters and otherwise packs the 4 characters big
endian into the tag. Characters are the utf8 bytes of the JS string. -/
def StringToFourCharCode : List Nat → Nat
  | [b0, b1, b2, b3] => ((b0 * 256 + b1) * 256 + b2) * 256 + b3
  | _ => 0

/-- Modelled from the spec: the codec half FourCharCodeToString, whose
implementation is not under src (helpers.h only declares it; AEDescriptor.h
line 71 calls it). Per section 4.2 it always succeeds and maps every byte
of the tag, big endian, to its literal character. -/
def FourCharCodeToString (t : Nat) : List Nat :=
  [t / 16777216 % 256, t / 65536 % 256, t / 256 % 256, t % 256]

/-- Modelled from the spec: OSError.ResolveMessage (declared at OSError.h
line 20, implementation not under src). Per section 4.3 it looks a code up
in a fixed table of known native status codes and falls back to a generic
unknown error string. The table is kept as a parameter. -/
def OSError.ResolveMessage (table : Int → Option String) (code : Int) : String :=
  (table code).getD (unknownErrorText ++ toString code)

/-- Modelled from the spec: OSError.Throw (declared at OSError.h lines
16-17, implementation not under src). Per section 4.3 the raised failure
wraps the status code, the caller supplied context, and the message
resolved by the status translator. -/
def OSError.Throw (table : Int → Option String) (code : Int) (context : String) : JSErr :=
  JSErr.osError ⟨code, context, OSError.ResolveMessage table code⟩

/-- The wrapper object AEDescriptorWrapper (AEDescriptor.h line 33): its
one piece of owned state is the nullable AEDesc pointer member desc
(line 36). -/
structure AEDescriptorWrapper where
  desc : Option AEDescRef
deriving DecidableEq

/-- WrapAEDesc (AEDescriptor.h lines 107-109): constructs a wrapper from
an External over the raw pointer, which the constructor (lines 40-43)
stores as the owned desc. -/
def WrapAEDesc (d : AEDescRef) : AEDescriptorWrapper :=
  ⟨some d⟩

/-- The wrapper constructor (AEDescriptor.h lines 38-50). If the argument
list is exactly one External, its pointer becomes the owned desc and no
exception is pending. Otherwise the derived class InitFromJS runs; it may
set desc and may leave an exception pending, which the parameter
initFromJS models (its code is in cpp files not under src, so the theorems
quantify over it). If afterwards desc is still null and no exception is
pending, the constructor throws the initialization failure error. Returns
the constructed wrapper and whether an exception is pending. -/
def construct (initFromJS : List NapiValue → Option AEDescRef × Bool)
    (info : List NapiValue) : AEDescriptorWrapper × Bool :=
  match info with
  | [NapiValue.external d] => (⟨some d⟩, false)
  | _ =>
    if (initFromJS info).1 = none ∧ (initFromJS info).2 = false then (⟨none⟩, true)
    else (⟨(initFromJS info).1⟩, (initFromJS info).2)

/-- The wrapper destructor (AEDescriptor.h lines 53-58): if desc is
non-null it calls AEDisposeDesc and deletes the cell, else it does
nothing. Returns the list of pointer ids passed to AEDisposeDesc. -/
def destructorDisposes (w : AEDescriptorWrapper) : List Nat :=
  match w.desc with
  | some d => [d.id]
  | none => []

/-- GetRawDescriptorType (AEDescriptor.h lines 62-67): throws the std
runtime error on a null desc, else reads the descriptorType field. -/
def GetRawDescriptorType (w : AEDescriptorWrapper) : Except JSErr Nat :=
  match w.desc with
  | none => Except.error (JSErr.runtimeError uninitializedAEDescMsg)
  | some d => Except.ok d.val.descriptorType

/-- GetDescriptorTypeOrThrow (AEDescriptor.h lines 69-72): returns the
codec rendering of GetRawDescriptorType; the runtime error of the latter
propagates. -/
def GetDescriptorTypeOrThrow (w : AEDescriptorWrapper) : Except JSErr (List Nat) :=
  (GetRawDescriptorType w).map FourCharCodeToString

/-- The oracle environment for a call into the native layer: AECoerceDesc
maps a source AEDesc and a target tag to a status code and the written
output record, table is the OSError message table. -/
structure NativeEnv where
  AECoerceDesc : AEDesc → Nat → Int × AEDesc
  table : Int → Option String

/-- The observable outcome of one AsOrThrow call: the JS result (the new
wrapper, or the pending exception), the state of the receiving wrapper
after the call, the list of AECoerceDesc invocations (source record and
target tag), and the allocator counter after the call. -/
structure AsOutcome where
  result : Except JSErr AEDescriptorWrapper
  self : AEDescriptorWrapper
  nativeCalls : List (AEDesc × Nat)
  nextId : Nat

/-- AsOrThrow (AEDescriptor.h lines 74-105), the coerceTo operation. In
source order: a TypeError unless the argument list is exactly one string;
the uninitialized error on a null desc; the invalid type error when the
codec returns the zero sentinel; otherwise one AECoerceDesc call on a
freshly allocated cell (id nextId), with the OSError raised on a non-zero
status (the fresh cell is deleted) and the wrapped new descriptor
returned on success. The receiving wrapper is never written to. -/
def AsOrThrow (env : NativeEnv) (nextId : Nat) (w : AEDescriptorWrapper)
    (info : List NapiValue) : AsOutcome :=
  match info with
  | [NapiValue.string s] =>
    match w.desc with
    | none => ⟨Except.error (JSErr.jsError uninitializedDescriptorMsg), w, [], nextId⟩
    | some d =>
      if StringToFourCharCode s = 0 then
        ⟨Except.error (JSErr.jsError invalidDescriptorTypeMsg), w, [], nextId⟩
      else if (env.AECoerceDesc d.val (StringToFourCharCode s)).1 ≠ 0 then
        ⟨Except.error
            (OSError.Throw env.table (env.AECoerceDesc d.val (StringToFourCharCode s)).1
              coerceFailedMsg),
          w, [(d.val, StringToFourCharCode s)], nextId + 1⟩
      else
        ⟨Except.ok (WrapAEDesc ⟨nextId, (env.AECoerceDesc d.val (StringToFourCharCode s)).2⟩),
          w, [(d.val, StringToFourCharCode s)], nextId + 1⟩
  | _ => ⟨Except.error (JSErr.typeError asExpectsStringMsg), w, [], nextId⟩

/-- A concrete InitFromJS behavior for instantiations: sets nothing and
throws nothing. -/
def initNone : List NapiValue → Option AEDescRef × Bool :=
  fun _ => (none, false)

/-- A concrete native environment whose coercion always succeeds,
retagging the record, with an empty message table. -/
def env0 : NativeEnv :=
  ⟨fun d t => (0, ⟨t, d.dataHandle⟩), fun _ => none⟩

/-- A concrete native environment whose coercion always fails with the
status code -1700. -/
def envFail : NativeEnv :=
  ⟨fun _ _ => (-1700, ⟨0, 0⟩), fun _ => none⟩

/-- A wrapper whose payload is null (disposed or never set). -/
def w0 : AEDescriptorWrapper := ⟨none⟩

/-- A concrete owned heap cell with pointer id 0. -/
def d0 : AEDescRef := ⟨0, ⟨1684234849, 7⟩⟩

/-- An owned wrapper over d0. -/
def w1 : AEDescriptorWrapper := ⟨some d0⟩

/-- The utf8 bytes of the 4 character string abcd. -/
def abcd : List Nat := [97, 98, 99, 100]

theorem length_four_exists (s : List Nat) (hs : s.length = 4) :
    ∃ a b c d, s = [a, b, c, d] := by
  match s with
  | [a, b, c, d] => exact ⟨a, b, c, d, rfl⟩
  | [] => simp at hs
  | [_] => simp at hs
  | [_, _] => simp at hs
  | [_, _, _] => simp at hs
  | _ :: _ :: _ :: _ :: _ :: _ =>
    simp only [List.length_cons] at hs
    omega

theorem stringToFourCharCode_of_length_ne (s : List Nat) (h : s.length ≠ 4) :
    StringToFourCharCode s = 0 := by
  match s with
  | [_, _, _, _] => exact absurd rfl h
  | [] => rfl
  | [_] => rfl
  | [_, _] => rfl
  | [_, _, _] => rfl
  | _ :: _ :: _ :: _ :: _ :: _ => rfl

/-- C1: every Descriptor follows the lifecycle Uninitialized, then Owned,
then Disposed. Whatever InitFromJS does, when construction returns with a
null payload an exception is pending and destruction is a no-op; when the
payload is non-null, destruction passes exactly that one cell to
AEDisposeDesc; a wrapper whose payload is null is never disposed. -/
theorem C1_lifecycle (initFromJS : List NapiValue → Option AEDescRef × Bool)
    (info : List NapiValue) (w : AEDescriptorWrapper) :
    ((construct initFromJS info).1.desc = none →
      (construct initFromJS info).2 = true
        ∧ destructorDisposes (construct initFromJS info).1 = [])
    ∧ (∀ d, w.desc = some d → destructorDisposes w = [d.id])
    ∧ (w.desc = none → destructorDisposes w = []) := by
  refine ⟨?_, ?_, ?_⟩
  · unfold construct
    split
    · intro hnone
      simp at hnone
    · split
      · intro _
        exact ⟨rfl, rfl⟩
      · intro hnone
        simp only at hnone
        rename_i h
        rcases Decidable.not_and_iff_or_not.mp h with h3 | h3
        · exact absurd hnone h3
        · refine ⟨?_, by simp [destructorDisposes, hnone]⟩
          simpa using Bool.not_eq_false _ |>.mp h3
  · intro d hd
    simp [destructorDisposes, hd]
  · intro hnone
    simp [destructorDisposes, hnone]

theorem C1_lifecycle_witness :
    destructorDisposes w1 = [0]
    ∧ destructorDisposes w0 = []
    ∧ (construct initNone [NapiValue.other]).2 = true := by
  refine ⟨(C1_lifecycle initNone [] w1).2.1 d0 rfl,
    (C1_lifecycle initNone [] w0).2.2 rfl, ?_⟩
  exact ((C1_lifecycle initNone [NapiValue.other] w0).1 rfl).1

/-- C3: the type tag codec round-trips in both directions. For every 4
character string s (bytes of the utf8 form), decoding the string and
re-encoding the tag gives s back, and for every 32 bit tag t, encoding
then decoding gives t back; the packing is big endian. -/
theorem C3_codec_roundtrip (s : List Nat) (t : Nat) (hs : s.length = 4)
    (hb : ∀ b ∈ s, b < 256) (ht : t < 4294967296) :
    FourCharCodeToString (StringToFourCharCode s) = s
    ∧ StringToFourCharCode (FourCharCodeToString t) = t := by
  constructor
  · obtain ⟨a, b, c, d, rfl⟩ := length_four_exists s hs
    have ha : a < 256 := hb a (by simp)
    have hbb : b < 256 := hb b (by simp)
    have hc : c < 256 := hb c (by simp)
    have hd : d < 256 := hb d (by simp)
    simp only [StringToFourCharCode, FourCharCodeToString, List.cons.injEq, and_true]
    refine ⟨?_, ?_, ?_, ?_⟩ <;> omega
  · simp only [StringToFourCharCode, FourCharCodeToString]
    omega

theorem C3_codec_roundtrip_witness :
    FourCharCodeToString (StringToFourCharCode abcd) = abcd
    ∧ StringToFourCharCode (FourCharCodeToString 5) = 5 :=
  C3_codec_roundtrip abcd 5 (by decide) (by decide) (by decide)

/-- C4: on a wrapper whose payload is null (disposed or never set), every
read or extraction operation fails with the uninitialized resource error:
GetRawDescriptorType and GetDescriptorTypeOrThrow raise the runtime
error, and AsOrThrow called with any type name string raises the
uninitialized descriptor error without touching the native layer. Each
operation returns a defined error value, so no call on a disposed wrapper
is undefined behavior. -/
theorem C4_disposed_operations_fail (env : NativeEnv) (nextId : Nat)
    (w : AEDescriptorWrapper) (s : List Nat) (h : w.desc = none) :
    GetRawDescriptorType w = Except.error (JSErr.runtimeError uninitializedAEDescMsg)
    ∧ GetDescriptorTypeOrThrow w
        = Except.error (JSErr.runtimeError uninitializedAEDescMsg)
    ∧ (AsOrThrow env nextId w [NapiValue.string s]).result
        = Except.error (JSErr.jsError uninitializedDescriptorMsg)
    ∧ (AsOrThrow env nextId w [NapiValue.string s]).nativeCalls = [] := by
  obtain ⟨wdesc⟩ := w
  simp only at h
  subst h
  refine ⟨rfl, rfl, rfl, rfl⟩

theorem C4_disposed_operations_fail_witness :
    GetRawDescriptorType w0 = Except.error (JSErr.runtimeError uninitializedAEDescMsg)
    ∧ GetDescriptorTypeOrThrow w0
        = Except.error (JSErr.runtimeError uninitializedAEDescMsg)
    ∧ (AsOrThrow env0 0 w0 [NapiValue.string abcd]).result
        = Except.error (JSErr.jsError uninitializedDescriptorMsg)
    ∧ (AsOrThrow env0 0 w0 [NapiValue.string abcd]).nativeCalls = [] :=
  C4_disposed_operations_fail env0 0 w0 abcd rfl

/-- C9: for a wrapper in any state and any argument list that is not
exactly one string, AsOrThrow raises the TypeError, inspects no payload,
decodes no type name, makes no native call, allocates nothing, and
leaves the wrapper unchanged. -/
theorem C9_bad_args_type_error (env : NativeEnv) (nextId : Nat)
    (w : AEDescriptorWrapper) (info : List NapiValue)
    (h : ∀ s, info ≠ [NapiValue.string s]) :
    AsOrThrow env nextId w info
      = ⟨Except.error (JSErr.typeError asExpectsStringMsg), w, [], nextId⟩ := by
  unfold AsOrThrow
  match info with
  | [] => rfl
  | [NapiValue.string s] => exact absurd rfl (h s)
  | [NapiValue.external d] => rfl
  | [NapiValue.other] => rfl
  | NapiValue.string _ :: _ :: _ => rfl
  | NapiValue.external _ :: _ :: _ => rfl
  | NapiValue.other :: _ :: _ => rfl

theorem C9_bad_args_type_error_witness :
    AsOrThrow env0 0 w1 []
      = ⟨Except.error (JSErr.typeError asExpectsStringMsg), w1, [], 0⟩ :=
  C9_bad_args_type_error env0 0 w1 [] (fun s h => List.noConfusion h)

/-- C6: for every owned wrapper, AsOrThrow with a type name that is not
exactly 4 characters raises the invalid descriptor type error, makes no
native call, allocates nothing, and leaves the wrapper unchanged: it
keeps the same payload and its raw type tag still reads back. -/
theorem C6_short_name_invalid (env : NativeEnv) (nextId : Nat)
    (w : AEDescriptorWrapper) (d : AEDescRef) (s : List Nat)
    (hown : w.desc = some d) (hlen : s.length ≠ 4) :
    AsOrThrow env nextId w [NapiValue.string s]
      = ⟨Except.error (JSErr.jsError invalidDescriptorTypeMsg), w, [], nextId⟩
    ∧ GetRawDescriptorType w = Except.ok d.val.descriptorType := by
  obtain ⟨wdesc⟩ := w
  simp only at hown
  subst hown
  have h0 := stringToFourCharCode_of_length_ne s hlen
  constructor
  · simp only [AsOrThrow, h0, if_pos]
  · rfl

theorem C6_short_name_invalid_witness :
    AsOrThrow env0 0 w1 [NapiValue.string [97, 98]]
      = ⟨Except.error (JSErr.jsError invalidDescriptorTypeMsg), w1, [], 0⟩
    ∧ GetRawDescriptorType w1 = Except.ok 1684234849 :=
  C6_short_name_invalid env0 0 w1 d0 [97, 98] rfl (by decide)

/-- C10: the zero tag is unreachable as a coercion target. For every
owned wrapper and every type name string of exactly 4 characters whose
big endian packing is the tag 0, AsOrThrow raises the invalid descriptor
type error and makes no native call, because the zero tag is the codec
failure sentinel. -/
theorem C10_zero_tag_rejected (env : NativeEnv) (nextId : Nat)
    (w : AEDescriptorWrapper) (d : AEDescRef) (s : List Nat)
    (hown : w.desc = some d) (_hlen : s.length = 4)
    (hzero : StringToFourCharCode s = 0) :
    AsOrThrow env nextId w [NapiValue.string s]
      = ⟨Except.error (JSErr.jsError invalidDescriptorTypeMsg), w, [], nextId⟩ := by
  obtain ⟨wdesc⟩ := w
  simp only at hown
  subst hown
  simp only [AsOrThrow, hzero, if_pos]

theorem C10_zero_tag_rejected_witness :
    ([0, 0, 0, 0] : List Nat).length = 4
    ∧ AsOrThrow env0 0 w1 [NapiValue.string [0, 0, 0, 0]]
      = ⟨Except.error (JSErr.jsError invalidDescriptorTypeMsg), w1, [], 0⟩ :=
  ⟨by decide, C10_zero_tag_rejected env0 0 w1 d0 [0, 0, 0, 0] rfl (by decide) (by decide)⟩

/-- C2: coercion is non-destructive. For every owned wrapper, every type
name, and every native behavior, when AsOrThrow succeeds it returns the
wrapper of a brand new cell whose pointer id is the fresh allocator value
and hence differs from the source cell id, while the source wrapper is
unchanged, still owned, and its raw type tag still reads back the same
value. -/
theorem C2_coercion_nondestructive (env : NativeEnv) (nextId : Nat)
    (w w2 : AEDescriptorWrapper) (d : AEDescRef) (s : List Nat)
    (hown : w.desc = some d) (halloc : d.id < nextId)
    (hsucc : (AsOrThrow env nextId w [NapiValue.string s]).result = Except.ok w2) :
    w2 = WrapAEDesc ⟨nextId, (env.AECoerceDesc d.val (StringToFourCharCode s)).2⟩
    ∧ (∀ r, w2.desc = some r → r.id ≠ d.id)
    ∧ (AsOrThrow env nextId w [NapiValue.string s]).self = w
    ∧ GetRawDescriptorType ((AsOrThrow env nextId w [NapiValue.string s]).self)
        = Except.ok d.val.descriptorType := by
  obtain ⟨wdesc⟩ := w
  simp only at hown
  subst hown
  by_cases h0 : StringToFourCharCode s = 0
  · have hbad : (AsOrThrow env nextId ⟨some d⟩ [NapiValue.string s]).result
        = Except.error (JSErr.jsError invalidDescriptorTypeMsg) := by
      simp [AsOrThrow, h0]
    rw [hbad] at hsucc
    exact absurd hsucc (by simp)
  · by_cases h1 : (env.AECoerceDesc d.val (StringToFourCharCode s)).1 ≠ 0
    · have hbad : (AsOrThrow env nextId ⟨some d⟩ [NapiValue.string s]).result
          = Except.error
              (OSError.Throw env.table (env.AECoerceDesc d.val (StringToFourCharCode s)).1
                coerceFailedMsg) := by
        simp [AsOrThrow, if_neg h0, if_pos h1]
      rw [hbad] at hsucc
      exact absurd hsucc (by simp [OSError.Throw])
    · have hA : AsOrThrow env nextId ⟨some d⟩ [NapiValue.string s]
          = ⟨Except.ok (WrapAEDesc ⟨nextId, (env.AECoerceDesc d.val (StringToFourCharCode s)).2⟩),
              ⟨some d⟩, [(d.val, StringToFourCharCode s)], nextId + 1⟩ := by
        simp only [AsOrThrow, if_neg h0, if_neg h1]
      rw [hA] at hsucc
      injection hsucc with hw2
      subst hw2
      rw [hA]
      refine ⟨rfl, ?_, rfl, rfl⟩
      intro r hr
      injection hr with hr
      subst hr
      show nextId ≠ d.id
      omega

theorem C2_coercion_nondestructive_witness :
    WrapAEDesc ⟨1, ⟨1633837924, 7⟩⟩
        = WrapAEDesc ⟨1, (env0.AECoerceDesc d0.val (StringToFourCharCode abcd)).2⟩
    ∧ (∀ r, (WrapAEDesc ⟨1, ⟨1633837924, 7⟩⟩).desc = some r → r.id ≠ d0.id)
    ∧ (AsOrThrow env0 1 w1 [NapiValue.string abcd]).self = w1
    ∧ GetRawDescriptorType ((AsOrThrow env0 1 w1 [NapiValue.string abcd]).self)
        = Except.ok d0.val.descriptorType := by
  have h := C2_coercion_nondestructive env0 1 w1 (WrapAEDesc ⟨1, ⟨1633837924, 7⟩⟩)
    d0 abcd rfl (by decide) rfl
  exact ⟨h.1, h.2.1, h.2.2.1, h.2.2.2⟩

/-- C5 counterexample: on a wrapper with a null payload and the 2
character type name ab, AsOrThrow raises the uninitialized descriptor
error, not the invalid descriptor type error the claimed check ordering
predicts: the payload check runs before the codec parse. -/
theorem C5_counterexample :
    (AsOrThrow env0 0 w0 [NapiValue.string [97, 98]]).result
      = Except.error (JSErr.jsError uninitializedDescriptorMsg)
    ∧ JSErr.jsError uninitializedDescriptorMsg
      ≠ JSErr.jsError invalidDescriptorTypeMsg :=
  ⟨rfl, by decide⟩

/-- C5 amended: AsOrThrow performs its checks in source order. After the
argument shape check it first fails with the uninitialized descriptor
error if the wrapper has no payload; only then does it parse the target
type name via the codec, failing with the invalid descriptor type error
on the zero sentinel; and only otherwise does it invoke the native
coercion routine, exactly once. -/
theorem C5_check_order (env : NativeEnv) (nextId : Nat)
    (w : AEDescriptorWrapper) (d : AEDescRef) (s : List Nat) :
    (w.desc = none →
      AsOrThrow env nextId w [NapiValue.string s]
        = ⟨Except.error (JSErr.jsError uninitializedDescriptorMsg), w, [], nextId⟩)
    ∧ (w.desc = some d → StringToFourCharCode s = 0 →
      AsOrThrow env nextId w [NapiValue.string s]
        = ⟨Except.error (JSErr.jsError invalidDescriptorTypeMsg), w, [], nextId⟩)
    ∧ (w.desc = some d → StringToFourCharCode s ≠ 0 →
      (AsOrThrow env nextId w [NapiValue.string s]).nativeCalls
        = [(d.val, StringToFourCharCode s)]) := by
  obtain ⟨wdesc⟩ := w
  refine ⟨?_, ?_, ?_⟩
  · intro hnone
    simp only at hnone
    subst hnone
    rfl
  · intro hown hzero
    simp only at hown
    subst hown
    simp only [AsOrThrow, hzero, if_pos]
  · intro hown hnz
    simp only at hown
    subst hown
    simp only [AsOrThrow, if_neg hnz]
    by_cases h1 : (env.AECoerceDesc d.val (StringToFourCharCode s)).1 ≠ 0
    · simp only [if_pos h1]
    · simp only [if_neg h1]

theorem C5_check_order_witness :
    AsOrThrow env0 0 w0 [NapiValue.string [97, 98]]
      = ⟨Except.error (JSErr.jsError uninitializedDescriptorMsg), w0, [], 0⟩
    ∧ (AsOrThrow env0 0 w1 [NapiValue.string abcd]).nativeCalls
      = [(d0.val, StringToFourCharCode abcd)] :=
  ⟨(C5_check_order env0 0 w0 d0 [97, 98]).1 rfl,
    (C5_check_order env0 0 w1 d0 abcd).2.2 rfl (by decide)⟩

/-- C7: for every owned wrapper and every native behavior, when the
native coercion routine returns a non-zero status, AsOrThrow raises the
OSError failure carrying exactly that status code, the coercion context
message, and the message resolved by the status translator table; the
routine was invoked exactly once (never swallowed or retried), and the
source wrapper still holds its payload and stays owned. -/
theorem C7_native_failure_translated (env : NativeEnv) (nextId : Nat)
    (w : AEDescriptorWrapper) (d : AEDescRef) (s : List Nat)
    (hown : w.desc = some d) (htag : StringToFourCharCode s ≠ 0)
    (hfail : (env.AECoerceDesc d.val (StringToFourCharCode s)).1 ≠ 0) :
    AsOrThrow env nextId w [NapiValue.string s]
      = ⟨Except.error (JSErr.osError
            ⟨(env.AECoerceDesc d.val (StringToFourCharCode s)).1, coerceFailedMsg,
              OSError.ResolveMessage env.table
                (env.AECoerceDesc d.val (StringToFourCharCode s)).1⟩),
          w, [(d.val, StringToFourCharCode s)], nextId + 1⟩
    ∧ GetRawDescriptorType w = Except.ok d.val.descriptorType := by
  obtain ⟨wdesc⟩ := w
  simp only at hown
  subst hown
  constructor
  · simp only [AsOrThrow, if_neg htag, if_pos hfail]
    rfl
  · rfl

theorem C7_native_failure_translated_witness :
    AsOrThrow envFail 0 w1 [NapiValue.string abcd]
      = ⟨Except.error (JSErr.osError
            ⟨-1700, coerceFailedMsg, OSError.ResolveMessage envFail.table (-1700)⟩),
          w1, [(d0.val, StringToFourCharCode abcd)], 1⟩
    ∧ GetRawDescriptorType w1 = Except.ok d0.val.descriptorType :=
  C7_native_failure_translated envFail 0 w1 d0 abcd rfl (by decide) (by decide)

/-- C8 counterexample: on a wrapper whose payload is null, the
descriptorType property getter fails with the uninitialized runtime
error, so typeName does not succeed in every Descriptor state. -/
theorem C8_counterexample :
    GetDescriptorTypeOrThrow w0
      = Except.error (JSErr.runtimeError uninitializedAEDescMsg) :=
  rfl

/-- C8 amended: typeName delegates to the type tag codec, which produces
a 4 character string for every 4 byte tag, registered or not; the getter
never fails on a wrapper that holds a payload, but on a wrapper whose
payload is null or disposed it fails with the uninitialized resource
error. -/
theorem C8_type_name_total_on_owned (w : AEDescriptorWrapper) (d : AEDescRef)
    (hown : w.desc = some d) :
    GetDescriptorTypeOrThrow w
      = Except.ok (FourCharCodeToString d.val.descriptorType)
    ∧ (∀ t : Nat, (FourCharCodeToString t).length = 4)
    ∧ (∀ w2 : AEDescriptorWrapper, w2.desc = none →
        GetDescriptorTypeOrThrow w2
          = Except.error (JSErr.runtimeError uninitializedAEDescMsg)) := by
  obtain ⟨wdesc⟩ := w
  simp only at hown
  subst hown
  refine ⟨rfl, fun t => rfl, ?_⟩
  intro w2 h2
  obtain ⟨w2desc⟩ := w2
  simp only at h2
  subst h2
  rfl

theorem C8_type_name_total_on_owned_witness :
    GetDescriptorTypeOrThrow w1
      = Except.ok (FourCharCodeToString d0.val.descriptorType)
    ∧ (FourCharCodeToString 0).length = 4
    ∧ GetDescriptorTypeOrThrow w0
      = Except.error (JSErr.runtimeError uninitializedAEDescMsg) := by
  have h := C8_type_name_total_on_owned w1 d0 rfl
  exact ⟨h.1, h.2.1 0, h.2.2 w0 rfl⟩

end ae_js_bridge
